import Mathlib

/-!
Shallow embedding of the plexmcp filter compiler.

The embedding covers the two components the claims are about:

* the Signal Extractor `parseNaturalLanguageQuery` of
  `src/tools/smart-search.ts` (free text to a partial filter set), together
  with the `smartSearch` wrapper that defaults the media type; and
* the Query Compiler part of `PlexApiClient.advancedSearch` of
  `src/plex-client.ts` (section resolution, parameter building,
  `getPlexTypeNumber`), with the HTTP transport abstracted away: the section
  list, the current time in milliseconds and the current calendar year are
  passed in as values, and the function returns the compiled query instead
  of performing the request.

JavaScript regular expressions are embedded as explicit left-to-right
scanners over character lists: the scanner tries the pattern at each start
position and advances one character on failure, exactly as the regex engine
searches for the leftmost match.  Ordered alternation is `List.findSome?`
over the alternatives, each running the rest of the pattern.  Optional
groups whose contents cannot prefix any later alternative are consumed
greedily without backtracking, which is observationally equal to the engine
behaviour for the concrete patterns embedded here (noted at each use).
JavaScript numbers are modelled as rationals, which is exact for every value
the claims mention.  Truthiness tests (`if (filters.x)`) are modelled by
`strTruthy`/`numTruthy`/`boolTruthy` on optional fields.
-/

/-- Whitespace characters of the JS regex class `\s` (ASCII range; the query
strings of interest contain only ASCII). -/
def isWS (c : Char) : Bool :=
  c = ' ' || c = '\t' || c = '\n' || c = '\r' || c = '\x0b' || c = '\x0c'

/-- Lower-cased character list of a string; models
`String.prototype.toLowerCase` (ASCII letters). -/
def lowerStr (s : String) : List Char := s.data.map Char.toLower

/-- Upper-cased string; models `String.prototype.toUpperCase` (ASCII). -/
def upperStr (s : String) : String := ⟨s.data.map Char.toUpper⟩

/-- Substring containment; models `String.prototype.includes`. -/
def containsSub : List Char → List Char → Bool
  | [], needle => needle.isEmpty
  | c :: rest, needle => needle.isPrefixOf (c :: rest) || containsSub rest needle

/-- Containment of a string literal in a character list. -/
def hasSub (l : List Char) (s : String) : Bool := containsSub l s.data

/-- Decimal value of a digit character. -/
def digVal (c : Char) : Nat := c.toNat - 48

/-- Greedy run of decimal digits: accumulated value, count, rest. -/
def readDigitsAux : List Char → Nat → Nat → Nat × Nat × List Char
  | c :: rest, acc, cnt =>
    if c.isDigit then readDigitsAux rest (acc * 10 + digVal c) (cnt + 1)
    else (acc, cnt, c :: rest)
  | [], acc, cnt => (acc, cnt, [])

/-- The regex piece `\d+` (greedy): value, digit count and rest, or `none`
when the input does not start with a digit. -/
def readDigits (l : List Char) : Option (Nat × Nat × List Char) :=
  match l with
  | c :: rest => if c.isDigit then some (readDigitsAux rest (digVal c) 1) else none
  | [] => none

/-- The regex piece `(\d{4})`: the value of the next four characters when all
four are digits. -/
def read4Digits : List Char → Option Nat
  | a :: b :: c :: d :: _ =>
    if a.isDigit && b.isDigit && c.isDigit && d.isDigit then
      some (digVal a * 1000 + digVal b * 100 + digVal c * 10 + digVal d)
    else none
  | _ => none

/-- The regex piece `\s*` (greedy). -/
def skipWS : List Char → List Char
  | c :: rest => if isWS c then skipWS rest else c :: rest
  | [] => []

/-- The regex piece `\s+`: at least one whitespace character. -/
def skipWS1 : List Char → Option (List Char)
  | c :: rest => if isWS c then some (skipWS rest) else none
  | [] => none

/-- Consume a literal when it is a prefix of the input. -/
def eatLit (s : String) (l : List Char) : Option (List Char) :=
  if s.data.isPrefixOf l then some (l.drop s.data.length) else none

/-- One attempt of `kw\s+(\d{4})` at the current position. -/
def kwYearAt (kw : String) (l : List Char) : Option Nat :=
  (eatLit kw l).bind fun r1 => (skipWS1 r1).bind read4Digits

/-- Leftmost match of `kw\s+(\d{4})`, e.g. `/before\s+(\d{4})/`. -/
def scanKwYear (kw : String) : List Char → Option Nat
  | [] => none
  | c :: rest =>
    match kwYearAt kw (c :: rest) with
    | some n => some n
    | none => scanKwYear kw rest

/-- The regex piece `(?:\s|$)`: end of input or a whitespace character next. -/
def wsOrEnd : List Char → Bool
  | [] => true
  | c :: _ => isWS c

/-- One attempt of `(\d{2})s(?:\s|$)` at the current position. -/
def decadeAt : List Char → Option Nat
  | a :: b :: c :: rest =>
    if a.isDigit && b.isDigit && c = 's' && wsOrEnd rest then
      some (digVal a * 10 + digVal b)
    else none
  | _ => none

/-- Leftmost match of the decade pattern `/(\d{2})s(?:\s|$)/`. -/
def decadeScan : List Char → Option Nat
  | [] => none
  | c :: rest =>
    match decadeAt (c :: rest) with
    | some n => some n
    | none => decadeScan rest

/-- Word characters of the JS regex class `\w`, for `\b` boundaries. -/
def isWordChar (c : Char) : Bool := c.isAlpha || c.isDigit || c = '_'

/-- One attempt of `(19\d{2}|20[0-2]\d)\b` at the current position. -/
def exactYearAt : List Char → Option Nat
  | a :: b :: c :: d :: rest =>
    if ((a = '1' && b = '9' && c.isDigit) ||
        (a = '2' && b = '0' && (c = '0' || c = '1' || c = '2'))) && d.isDigit
        && (match rest with | [] => true | e :: _ => !isWordChar e) then
      some (digVal a * 1000 + digVal b * 100 + digVal c * 10 + digVal d)
    else none
  | _ => none

/-- Scanner for `/\b(19\d{2}|20[0-2]\d)\b/`; the boolean records whether the
previous character was a non-word character (so a `\b` can hold here, the
pattern starting with a digit). -/
def exactYearScanAux : Bool → List Char → Option Nat
  | _, [] => none
  | prevBoundary, c :: rest =>
    match (if prevBoundary then exactYearAt (c :: rest) else none) with
    | some n => some n
    | none => exactYearScanAux (!isWordChar c) rest

/-- Leftmost match of `/\b(19\d{2}|20[0-2]\d)\b/`. -/
def exactYearScan (l : List Char) : Option Nat := exactYearScanAux true l

/-- The regex piece `(\d+(?:\.\d+)?)` read as a rational, mirroring
`parseFloat` on the captured text. -/
def ratNum (l : List Char) : Option ℚ :=
  (readDigits l).map fun r =>
    match r with
    | (n, _, rest) =>
      match rest with
      | '.' :: r2 =>
        match readDigits r2 with
        | some (m, cnt, _) => (n : ℚ) + (m : ℚ) / ((10 : ℚ) ^ cnt)
        | none => (n : ℚ)
      | _ => (n : ℚ)

/-- Comparison keywords of `/(?:rated?|rating)\s*(?:above|over|>|greater than)\s*.../`. -/
def aboveCmps : List String := ["above", "over", ">", "greater than"]

/-- Comparison keywords of the symmetric `below|under|<|less than` pattern. -/
def belowCmps : List String := ["below", "under", "<", "less than"]

/-- One attempt of the rating pattern at the current position.  `rated?` is
tried with the optional `d` first, then without it, then the alternative
`rating`, each followed by the whole rest of the pattern, which is the regex
engine's preference order. -/
def ratingAt (cmps : List String) (l : List Char) : Option ℚ :=
  ["rated", "rate", "rating"].findSome? fun kw =>
    (eatLit kw l).bind fun r1 =>
      cmps.findSome? fun cmp =>
        (eatLit cmp (skipWS r1)).bind fun r2 =>
          ratNum (skipWS r2)

/-- Leftmost match of the rating bound pattern. -/
def ratingScan (cmps : List String) : List Char → Option ℚ
  | [] => none
  | c :: rest =>
    match ratingAt cmps (c :: rest) with
    | some q => some q
    | none => ratingScan cmps rest

/-- One attempt of `word|kw\s+(\d+)\s*(?:min|hour)` at the current position
(`short|under...` and `long|over...`).  `some none` is a match through the
bare word (no captured count), `some (some n)` a match with count `n`. -/
def durAt (word kw : String) (l : List Char) : Option (Option Nat) :=
  if word.data.isPrefixOf l then some none
  else
    (eatLit kw l).bind fun r1 =>
      (skipWS1 r1).bind fun r2 =>
        (readDigits r2).bind fun r =>
          match r with
          | (n, _, r3) =>
            if "min".data.isPrefixOf (skipWS r3) || "hour".data.isPrefixOf (skipWS r3) then
              some (some n)
            else none

/-- Leftmost match of the duration pattern. -/
def durScan (word kw : String) : List Char → Option (Option Nat)
  | [] => none
  | c :: rest =>
    match durAt word kw (c :: rest) with
    | some r => some r
    | none => durScan word kw rest

/-- Optional literal followed by `\s*`: consumed greedily when present.  For
the patterns below this equals the backtracking semantics, because no later
alternative of those patterns starts with the optional literal's text. -/
def eatOpt (s : String) (l : List Char) : List Char :=
  match eatLit s l with
  | some r => skipWS r
  | none => l

/-- Optional ordered alternation of literals, consumed greedily when one is
a prefix (no trailing `\s*` inside the group). -/
def eatOptAlt (opts : List String) (l : List Char) : List Char :=
  match opts.findSome? fun s => eatLit s l with
  | some r => r
  | none => l

/-- One attempt of
`(?:added|new)\s*(?:in\s*)?(?:the\s*)?(?:last|past)?\s*(\d+)?\s*(day|week|month)`
at the current position: the optional count capture and the unit. -/
def recentAt (l : List Char) : Option (Option Nat × String) :=
  (["added", "new"].findSome? fun kw => eatLit kw l).bind fun r0 =>
    let r1 := skipWS r0
    let r2 := eatOpt "in" r1
    let r3 := eatOpt "the" r2
    let r4 := eatOptAlt ["last", "past"] r3
    let r5 := skipWS r4
    let cr :=
      match readDigits r5 with
      | some (n, _, r) => (some n, r)
      | none => (none, r5)
    match cr with
    | (cap, r6) =>
      let r7 := skipWS r6
      (["day", "week", "month"].findSome? fun u => (eatLit u r7).map fun _ => u).map
        fun u => (cap, u)

/-- Leftmost match of the recency pattern. -/
def recentScan : List Char → Option (Option Nat × String)
  | [] => none
  | c :: rest =>
    match recentAt (c :: rest) with
    | some r => some r
    | none => recentScan rest

/-- The fixed ordered genre allow-list of the Extractor. -/
def genresList : List String :=
  ["action", "adventure", "animation", "anime", "biography", "comedy", "crime",
   "documentary", "drama", "family", "fantasy", "film-noir", "history", "horror",
   "musical", "mystery", "romance", "sci-fi", "science fiction", "sport", "thriller",
   "war", "western"]

/-- Genre normalization applied on extraction. -/
def normGenre (g : String) : String := if g = "science fiction" then "sci-fi" else g

/-- The fixed ordered content-rating list of the Extractor (lower case). -/
def contentRatingsList : List String :=
  ["g", "pg", "pg-13", "r", "nc-17", "tv-y", "tv-y7", "tv-g", "tv-pg", "tv-14", "tv-ma"]

/-- Hyphens replaced by spaces; models `cr.replace('-', ' ')` (each list
entry holds at most one hyphen, so replacing every one is the same). -/
def dehyphen (s : String) : String := ⟨s.data.map fun c => if c = '-' then ' ' else c⟩

/-- The canonical filter set: every field independently optional, numeric
fields as rationals, the three watch-status fields independent booleans. -/
structure Filters where
  sectionId : Option String := none
  type : Option String := none
  title : Option String := none
  year : Option ℚ := none
  minYear : Option ℚ := none
  maxYear : Option ℚ := none
  decade : Option ℚ := none
  genre : Option String := none
  contentRating : Option String := none
  minRating : Option ℚ := none
  maxRating : Option ℚ := none
  director : Option String := none
  actor : Option String := none
  studio : Option String := none
  unwatched : Option Bool := none
  watched : Option Bool := none
  inProgress : Option Bool := none
  minDuration : Option ℚ := none
  maxDuration : Option ℚ := none
  addedWithin : Option ℚ := none
  resolution : Option String := none
  sort : Option String := none
  sortOrder : Option String := none
  limit : Option ℚ := none
deriving Repr, DecidableEq

/-- A filter with every field unset. -/
def emptyFilters : Filters := {}

/-- The Signal Extractor `parseNaturalLanguageQuery` of smart-search.ts:
pure function from free text to a partial filter set. -/
def parseNaturalLanguageQuery (query : String) : Filters :=
  let lq := lowerStr query
  let decadeM := decadeScan lq
  let fromM := scanKwYear "from" lq
  let beforeM := scanKwYear "before" lq
  let afterM := scanKwYear "after" lq
  let exactM := exactYearScan lq
  let recentM := recentScan lq
  { type :=
      if hasSub lq "movie" || hasSub lq "film" then some "movie"
      else if hasSub lq "show" || hasSub lq "series" || hasSub lq "tv" then some "show"
      else if hasSub lq "episode" then some "episode"
      else none
    unwatched :=
      if hasSub lq "unwatched" || hasSub lq "not watched" || hasSub lq "haven't watched" then
        some true
      else none
    watched :=
      if hasSub lq "unwatched" || hasSub lq "not watched" || hasSub lq "haven't watched" then
        none
      else if hasSub lq "watched" && !hasSub lq "unwatched" then some true
      else none
    inProgress :=
      if hasSub lq "in progress" || hasSub lq "continue" || hasSub lq "started" then
        some true
      else none
    decade := decadeM.map fun dd =>
      ((if dd < 30 then 2000 + dd * 10 else 1900 + dd * 10 : ℕ) : ℚ)
    minYear :=
      match afterM with
      | some y => some ((y : ℚ) + 1)
      | none => fromM.map fun y => (y : ℚ)
    maxYear := beforeM.map fun y => (y : ℚ) - 1
    year :=
      match exactM with
      | some y => if decadeM.isNone && fromM.isNone then some ((y : ℚ)) else none
      | none => none
    minRating := ratingScan aboveCmps lq
    maxRating := ratingScan belowCmps lq
    genre := (genresList.find? fun g => hasSub lq g).map normGenre
    maxDuration := (durScan "short" "under" lq).map fun cap =>
      match cap with
      | some n => (n : ℚ)
      | none => 90
    minDuration := (durScan "long" "over" lq).map fun cap =>
      match cap with
      | some n => (n : ℚ)
      | none => 120
    resolution :=
      if hasSub lq "4k" || hasSub lq "uhd" then some "4k"
      else if hasSub lq "hd" && !hasSub lq "uhd" then some "hd"
      else none
    addedWithin :=
      match recentM with
      | some cu =>
        match cu with
        | (cap, u) =>
          let num : ℕ := cap.getD 1
          if u = "day" then some ((num : ℚ))
          else if u = "week" then some ((num : ℚ) * 7)
          else if u = "month" then some ((num : ℚ) * 30)
          else none
      | none =>
        if hasSub lq "recently added" || hasSub lq "new" then some 7 else none
    contentRating :=
      (contentRatingsList.find? fun cr => hasSub lq cr || hasSub lq (dehyphen cr)).map upperStr
    sort :=
      if hasSub lq "best" || hasSub lq "top rated" || hasSub lq "highest rated" then
        some "rating"
      else if hasSub lq "newest" || hasSub lq "latest" || hasSub lq "recent" then
        some "addedAt"
      else if hasSub lq "oldest" then some "year"
      else if hasSub lq "random" || hasSub lq "surprise" then some "random"
      else none
    sortOrder :=
      if hasSub lq "best" || hasSub lq "top rated" || hasSub lq "highest rated" then
        some "desc"
      else if hasSub lq "newest" || hasSub lq "latest" || hasSub lq "recent" then
        some "desc"
      else if hasSub lq "oldest" then some "asc"
      else none }

/-- JS truthiness of an optional string (empty string and absence are falsy). -/
def strTruthy : Option String → Bool
  | none => false
  | some s => s != ""

/-- JS truthiness of an optional number (zero and absence are falsy). -/
def numTruthy : Option ℚ → Bool
  | none => false
  | some q => q != 0

/-- JS truthiness of an optional boolean. -/
def boolTruthy : Option Bool → Bool
  | none => false
  | some b => b

/-- Value of an optional string where the code has already tested truthiness. -/
def getS : Option String → String
  | some s => s
  | none => ""

/-- Value of an optional number where the code has already tested truthiness. -/
def getQ : Option ℚ → ℚ
  | some q => q
  | none => 0

/-- The `smartSearch` wrapper: parse, default the media type to movie when
none was detected, and attach the limit (schema default 25). -/
def smartSearchFilters (query : String) : Filters :=
  let f := parseNaturalLanguageQuery query
  { f with
    type := if strTruthy f.type then f.type else some "movie"
    limit := some 25 }

/-- A library section as consumed by section resolution: key and declared type. -/
structure PlexSection where
  key : String
  stype : String
deriving Repr, DecidableEq

/-- A scalar query-parameter value (string or number). -/
inductive PValue where
  | str (s : String)
  | num (q : ℚ)
deriving Repr, DecidableEq

/-- First-match association lookup, modelling a JS object literal indexed by
a string key (all keys distinct). -/
def assocLookup {α : Type} : List (String × α) → String → Option α
  | [], _ => none
  | (k, v) :: rest, s => if k = s then some v else assocLookup rest s

/-- The closed type-code table of `getPlexTypeNumber`. -/
def typeMap : List (String × ℚ) :=
  [("movie", 1), ("show", 2), ("season", 3), ("episode", 4), ("trailer", 5),
   ("comic", 6), ("person", 7), ("artist", 8), ("album", 9), ("track", 10),
   ("photo", 11), ("clip", 12), ("photo_album", 13)]

/-- `getPlexTypeNumber`: table lookup with fallback 1 (`typeMap[type] || 1`;
an absent type indexes as `undefined` and also falls back to 1). -/
def getPlexTypeNumber (t : Option String) : ℚ :=
  match t with
  | some s =>
    match assocLookup typeMap s with
    | some n => n
    | none => 1
  | none => 1

/-- The closed sort-field allow-list (the identity table `sortMap`). -/
def sortMap : List (String × String) :=
  [("titleSort", "titleSort"), ("year", "year"), ("rating", "rating"),
   ("addedAt", "addedAt"), ("lastViewedAt", "lastViewedAt"),
   ("duration", "duration"), ("random", "random")]

/-- The resolved sort field: `sortMap[filters.sort] || 'titleSort'` under the
truthiness guard `if (filters.sort)`. -/
def sortFieldOf (f : Filters) : String :=
  if strTruthy f.sort then
    match assocLookup sortMap (getS f.sort) with
    | some v => v
    | none => "titleSort"
  else "titleSort"

/-- The resolved sort direction: desc exactly when `sortOrder === 'desc'`. -/
def sortDirOf (f : Filters) : String :=
  if f.sortOrder = some "desc" then "desc" else "asc"

/-- The `type` parameter (always emitted). -/
def typeParams (f : Filters) : List (String × PValue) :=
  [("type", PValue.num (getPlexTypeNumber f.type))]

/-- The title filter parameter. -/
def titleParams (f : Filters) : List (String × PValue) :=
  if strTruthy f.title then [("title", PValue.str (getS f.title))] else []

/-- The three year branches, in source order: exact year, min/max range with
defaults 1800 and the current calendar year, then decade range (written
last, so its keys overwrite the min/max keys). -/
def yearParams (f : Filters) (currentYear : ℚ) : List (String × PValue) :=
  (if numTruthy f.year then [("year", PValue.num (getQ f.year))] else []) ++
  (if numTruthy f.minYear || numTruthy f.maxYear then
      [("year>>", PValue.num (if numTruthy f.minYear then getQ f.minYear else 1800)),
       ("year<<", PValue.num (if numTruthy f.maxYear then getQ f.maxYear else currentYear))]
    else []) ++
  (if numTruthy f.decade then
      [("year>>", PValue.num (getQ f.decade)),
       ("year<<", PValue.num (getQ f.decade + 9))]
    else [])

/-- The rating bound parameters. -/
def ratingParams (f : Filters) : List (String × PValue) :=
  (if numTruthy f.minRating then [("rating>>", PValue.num (getQ f.minRating))] else []) ++
  (if numTruthy f.maxRating then [("rating<<", PValue.num (getQ f.maxRating))] else [])

/-- The verbatim pass-through tag parameters. -/
def tagParams (f : Filters) : List (String × PValue) :=
  (if strTruthy f.genre then [("genre", PValue.str (getS f.genre))] else []) ++
  (if strTruthy f.contentRating then
      [("contentRating", PValue.str (getS f.contentRating))]
    else []) ++
  (if strTruthy f.director then [("director", PValue.str (getS f.director))] else []) ++
  (if strTruthy f.actor then [("actor", PValue.str (getS f.actor))] else []) ++
  (if strTruthy f.studio then [("studio", PValue.str (getS f.studio))] else [])

/-- The watch-status parameters (emitted independently of each other). -/
def watchParams (f : Filters) : List (String × PValue) :=
  (if boolTruthy f.unwatched then [("unwatched", PValue.num 1)] else []) ++
  (if boolTruthy f.watched then [("viewCount>>", PValue.num 0)] else []) ++
  (if boolTruthy f.inProgress then [("inProgress", PValue.num 1)] else [])

/-- The duration bound parameters: minutes times 60 times 1000. -/
def durationParams (f : Filters) : List (String × PValue) :=
  (if numTruthy f.minDuration then
      [("duration>>", PValue.num (getQ f.minDuration * 60 * 1000))]
    else []) ++
  (if numTruthy f.maxDuration then
      [("duration<<", PValue.num (getQ f.maxDuration * 60 * 1000))]
    else [])

/-- The recency parameter: Unix-seconds lower bound on the add timestamp. -/
def addedParams (f : Filters) (nowMs : ℚ) : List (String × PValue) :=
  if numTruthy f.addedWithin then
    [("addedAt>>",
      PValue.num ((⌊(nowMs - getQ f.addedWithin * 24 * 60 * 60 * 1000) / 1000⌋ : ℤ) : ℚ))]
  else []

/-- The resolution parameter: 4k and hd have mappings, anything else none. -/
def resolutionParams (f : Filters) : List (String × PValue) :=
  if strTruthy f.resolution then
    if getS f.resolution = "4k" then [("videoResolution", PValue.str "4k")]
    else if getS f.resolution = "hd" then [("videoResolution", PValue.str "1080")]
    else []
  else []

/-- The sort parameter, always `field:direction`. -/
def sortParams (f : Filters) : List (String × PValue) :=
  [("sort", PValue.str (sortFieldOf f ++ ":" ++ sortDirOf f))]

/-- The pagination window: start 0, size `limit || 25`. -/
def pageParams (f : Filters) : List (String × PValue) :=
  [("X-Plex-Container-Start", PValue.num 0),
   ("X-Plex-Container-Size", PValue.num (if numTruthy f.limit then getQ f.limit else 25))]

/-- The full ordered parameter list `advancedSearch` builds from a resolved
filter (later writes to the same key overwrite earlier ones, which `getParam`
models by giving the last occurrence priority). -/
def buildParams (f : Filters) (nowMs currentYear : ℚ) : List (String × PValue) :=
  typeParams f ++ titleParams f ++ yearParams f currentYear ++ ratingParams f ++
  tagParams f ++ watchParams f ++ durationParams f ++ addedParams f nowMs ++
  resolutionParams f ++ sortParams f ++ pageParams f

/-- Section resolution of `advancedSearch`: an explicitly supplied (truthy)
sectionId wins; otherwise the first section whose declared type matches the
filter's media-type family; `none` when that still leaves no truthy key. -/
def resolveSection (f : Filters) (sections : List PlexSection) : Option String :=
  let s1 : Option String :=
    if strTruthy f.sectionId then f.sectionId
    else
      match f.type with
      | some ty =>
        if ty = "movie" then
          (sections.find? fun s => s.stype == "movie").map fun s => s.key
        else if ty = "show" || ty = "episode" then
          (sections.find? fun s => s.stype == "show").map fun s => s.key
        else if ty = "artist" || ty = "album" || ty = "track" then
          (sections.find? fun s => s.stype == "artist").map fun s => s.key
        else none
      | none => none
  if strTruthy s1 then s1 else none

/-- The compiled query: target section and ordered parameter list (the sort
string and the pagination window are entries of the list, as in the code). -/
structure CompiledQuery where
  sectionId : String
  params : List (String × PValue)
deriving Repr, DecidableEq

/-- The Query Compiler `advancedSearch` of plex-client.ts: section resolution
first (throwing the section-resolution error before any parameter is built),
then the parameter build. -/
def advancedSearch (f : Filters) (sections : List PlexSection) (nowMs currentYear : ℚ) :
    Except String CompiledQuery :=
  match resolveSection f sections with
  | some sid => Except.ok { sectionId := sid, params := buildParams f nowMs currentYear }
  | none => Except.error "Could not determine library section for search"

/-- First-of the two options, used to state that a later write wins. -/
def optOr (a b : Option PValue) : Option PValue :=
  match a with
  | some v => some v
  | none => b

/-- Lookup of a synthesized key in the ordered parameter list: the last write
for the key wins, as for a JS object. -/
def getParam : List (String × PValue) → String → Option PValue
  | [], _ => none
  | p :: rest, k => optOr (getParam rest k) (if p.1 = k then some p.2 else none)

/-- Media-type family matching as the specification words it: movie filters
match movie sections, show and episode filters match show sections, artist,
album and track filters match artist sections. -/
def specFamilyMatches (t : Option String) (stype : String) : Bool :=
  match t with
  | none => false
  | some ty =>
    if ty = "movie" then stype == "movie"
    else if ty = "show" || ty = "episode" then stype == "show"
    else if ty = "artist" || ty = "album" || ty = "track" then stype == "artist"
    else false

/-! ## Lookup machinery for the ordered parameter list -/

theorem optOr_none_right (a : Option PValue) : optOr a none = a := by
  cases a <;> rfl

theorem optOr_assoc (a b c : Option PValue) :
    optOr (optOr a b) c = optOr a (optOr b c) := by
  cases a <;> rfl

theorem getParam_append (l1 l2 : List (String × PValue)) (k : String) :
    getParam (l1 ++ l2) k = optOr (getParam l2 k) (getParam l1 k) := by
  induction l1 with
  | nil => simp [getParam, optOr_none_right]
  | cons p rest ih => simp [getParam, ih, optOr_assoc]

theorem getParam_none (l : List (String × PValue)) (k : String)
    (h : ∀ p ∈ l, p.1 ≠ k) : getParam l k = none := by
  induction l with
  | nil => rfl
  | cons p rest ih =>
    rw [getParam, ih fun q hq => h q (List.mem_cons_of_mem _ hq),
      if_neg (h p (List.mem_cons_self _ _))]
    rfl

theorem getParam_keys_none (l : List (String × PValue)) (keys : List String) (k : String)
    (hl : ∀ p ∈ l, p.1 ∈ keys) (hk : k ∉ keys) : getParam l k = none :=
  getParam_none l k fun p hp he => hk (he ▸ hl p hp)

theorem mem_of_mem_ite_nil {c : Prop} [Decidable c] {L : List (String × PValue)}
    {p : String × PValue} (h : p ∈ (if c then L else [])) : p ∈ L := by
  by_cases hc : c
  · simpa [hc] using h
  · simp [hc] at h

theorem getParam_ite {c : Prop} [Decidable c] (L : List (String × PValue)) (k : String) :
    getParam (if c then L else []) k = if c then getParam L k else none := by
  split <;> rfl

/-! ## The keys each parameter block can write -/

theorem typeParams_keys (f : Filters) : ∀ p ∈ typeParams f, p.1 ∈ ["type"] := by
  intro p hp
  simp only [typeParams, List.mem_singleton] at hp
  simp [hp]

theorem titleParams_keys (f : Filters) : ∀ p ∈ titleParams f, p.1 ∈ ["title"] := by
  intro p hp
  have h := mem_of_mem_ite_nil (by simpa only [titleParams] using hp)
  simp only [List.mem_singleton] at h
  simp [h]

theorem yearParams_keys (f : Filters) (cy : ℚ) :
    ∀ p ∈ yearParams f cy, p.1 ∈ ["year", "year>>", "year<<"] := by
  intro p hp
  simp only [yearParams, List.mem_append] at hp
  rcases hp with (hp | hp) | hp
  · have h := mem_of_mem_ite_nil hp
    simp only [List.mem_singleton] at h
    simp [h]
  · have h := mem_of_mem_ite_nil hp
    simp only [List.mem_cons, List.not_mem_nil, or_false] at h
    rcases h with h | h <;> simp [h]
  · have h := mem_of_mem_ite_nil hp
    simp only [List.mem_cons, List.not_mem_nil, or_false] at h
    rcases h with h | h <;> simp [h]

theorem ratingParams_keys (f : Filters) :
    ∀ p ∈ ratingParams f, p.1 ∈ ["rating>>", "rating<<"] := by
  intro p hp
  simp only [ratingParams, List.mem_append] at hp
  rcases hp with hp | hp <;>
    · have h := mem_of_mem_ite_nil hp
      simp only [List.mem_singleton] at h
      simp [h]

theorem tagParams_keys (f : Filters) :
    ∀ p ∈ tagParams f, p.1 ∈ ["genre", "contentRating", "director", "actor", "studio"] := by
  intro p hp
  simp only [tagParams, List.mem_append] at hp
  rcases hp with (((hp | hp) | hp) | hp) | hp <;>
    · have h := mem_of_mem_ite_nil hp
      simp only [List.mem_singleton] at h
      simp [h]

theorem watchParams_keys (f : Filters) :
    ∀ p ∈ watchParams f, p.1 ∈ ["unwatched", "viewCount>>", "inProgress"] := by
  intro p hp
  simp only [watchParams, List.mem_append] at hp
  rcases hp with (hp | hp) | hp <;>
    · have h := mem_of_mem_ite_nil hp
      simp only [List.mem_singleton] at h
      simp [h]

theorem durationParams_keys (f : Filters) :
    ∀ p ∈ durationParams f, p.1 ∈ ["duration>>", "duration<<"] := by
  intro p hp
  simp only [durationParams, List.mem_append] at hp
  rcases hp with hp | hp <;>
    · have h := mem_of_mem_ite_nil hp
      simp only [List.mem_singleton] at h
      simp [h]

theorem addedParams_keys (f : Filters) (nowMs : ℚ) :
    ∀ p ∈ addedParams f nowMs, p.1 ∈ ["addedAt>>"] := by
  intro p hp
  have h := mem_of_mem_ite_nil (by simpa only [addedParams] using hp)
  simp only [List.mem_singleton] at h
  simp [h]

theorem resolutionParams_keys (f : Filters) :
    ∀ p ∈ resolutionParams f, p.1 ∈ ["videoResolution"] := by
  intro p hp
  simp only [resolutionParams] at hp
  by_cases h1 : strTruthy f.resolution
  · simp only [if_pos h1] at hp
    by_cases h2 : getS f.resolution = "4k"
    · simp only [if_pos h2, List.mem_singleton] at hp
      simp [hp]
    · simp only [if_neg h2] at hp
      by_cases h3 : getS f.resolution = "hd"
      · simp only [if_pos h3, List.mem_singleton] at hp
        simp [hp]
      · simp only [if_neg h3, List.not_mem_nil] at hp
  · simp only [if_neg h1, List.not_mem_nil] at hp

theorem sortParams_keys (f : Filters) : ∀ p ∈ sortParams f, p.1 ∈ ["sort"] := by
  intro p hp
  simp only [sortParams, List.mem_singleton] at hp
  simp [hp]

theorem pageParams_keys (f : Filters) :
    ∀ p ∈ pageParams f, p.1 ∈ ["X-Plex-Container-Start", "X-Plex-Container-Size"] := by
  intro p hp
  simp only [pageParams, List.mem_cons, List.not_mem_nil, or_false] at hp
  rcases hp with h | h <;> simp [h]

/-! ## Lookups into the full compiled parameter list -/

theorem optOr_none_left (b : Option PValue) : optOr none b = b := rfl

theorem gp_sort (f : Filters) (nowMs cy : ℚ) :
    getParam (buildParams f nowMs cy) "sort" =
      some (PValue.str (sortFieldOf f ++ ":" ++ sortDirOf f)) := by
  have hpg : getParam (pageParams f) "sort" = none :=
    getParam_keys_none _ _ _ (pageParams_keys f) (by decide)
  simp [buildParams, getParam_append, hpg, sortParams, getParam, optOr]

theorem gp_size (f : Filters) (nowMs cy : ℚ) :
    getParam (buildParams f nowMs cy) "X-Plex-Container-Size" =
      some (PValue.num (if numTruthy f.limit then getQ f.limit else 25)) := by
  simp [buildParams, getParam_append, pageParams, getParam, optOr]

theorem gp_year (f : Filters) (nowMs cy : ℚ) :
    getParam (buildParams f nowMs cy) "year" =
      if numTruthy f.year then some (PValue.num (getQ f.year)) else none := by
  have h1 := getParam_keys_none _ _ "year" (typeParams_keys f) (by decide)
  have h2 := getParam_keys_none _ _ "year" (titleParams_keys f) (by decide)
  have h4 := getParam_keys_none _ _ "year" (ratingParams_keys f) (by decide)
  have h5 := getParam_keys_none _ _ "year" (tagParams_keys f) (by decide)
  have h6 := getParam_keys_none _ _ "year" (watchParams_keys f) (by decide)
  have h7 := getParam_keys_none _ _ "year" (durationParams_keys f) (by decide)
  have h8 := getParam_keys_none _ _ "year" (addedParams_keys f nowMs) (by decide)
  have h9 := getParam_keys_none _ _ "year" (resolutionParams_keys f) (by decide)
  have h10 := getParam_keys_none _ _ "year" (sortParams_keys f) (by decide)
  have h11 := getParam_keys_none _ _ "year" (pageParams_keys f) (by decide)
  simp only [buildParams, getParam_append, h1, h2, h4, h5, h6, h7, h8, h9, h10, h11,
    optOr_none_right, optOr_none_left]
  simp only [yearParams, getParam_append, getParam_ite]
  by_cases hy : numTruthy f.year = true <;>
    by_cases hm : (numTruthy f.minYear || numTruthy f.maxYear) = true <;>
      by_cases hd : numTruthy f.decade = true <;>
        simp [hy, hm, hd, getParam, optOr]

theorem gp_yearGte (f : Filters) (nowMs cy : ℚ) :
    getParam (buildParams f nowMs cy) "year>>" =
      if numTruthy f.decade then some (PValue.num (getQ f.decade))
      else if numTruthy f.minYear || numTruthy f.maxYear then
        some (PValue.num (if numTruthy f.minYear then getQ f.minYear else 1800))
      else none := by
  have h1 := getParam_keys_none _ _ "year>>" (typeParams_keys f) (by decide)
  have h2 := getParam_keys_none _ _ "year>>" (titleParams_keys f) (by decide)
  have h4 := getParam_keys_none _ _ "year>>" (ratingParams_keys f) (by decide)
  have h5 := getParam_keys_none _ _ "year>>" (tagParams_keys f) (by decide)
  have h6 := getParam_keys_none _ _ "year>>" (watchParams_keys f) (by decide)
  have h7 := getParam_keys_none _ _ "year>>" (durationParams_keys f) (by decide)
  have h8 := getParam_keys_none _ _ "year>>" (addedParams_keys f nowMs) (by decide)
  have h9 := getParam_keys_none _ _ "year>>" (resolutionParams_keys f) (by decide)
  have h10 := getParam_keys_none _ _ "year>>" (sortParams_keys f) (by decide)
  have h11 := getParam_keys_none _ _ "year>>" (pageParams_keys f) (by decide)
  simp only [buildParams, getParam_append, h1, h2, h4, h5, h6, h7, h8, h9, h10, h11,
    optOr_none_right, optOr_none_left]
  simp only [yearParams, getParam_append, getParam_ite]
  by_cases hy : numTruthy f.year = true <;>
    by_cases hm : (numTruthy f.minYear || numTruthy f.maxYear) = true <;>
      by_cases hd : numTruthy f.decade = true <;>
        simp [hy, hm, hd, getParam, optOr]

theorem gp_yearLte (f : Filters) (nowMs cy : ℚ) :
    getParam (buildParams f nowMs cy) "year<<" =
      if numTruthy f.decade then some (PValue.num (getQ f.decade + 9))
      else if numTruthy f.minYear || numTruthy f.maxYear then
        some (PValue.num (if numTruthy f.maxYear then getQ f.maxYear else cy))
      else none := by
  have h1 := getParam_keys_none _ _ "year<<" (typeParams_keys f) (by decide)
  have h2 := getParam_keys_none _ _ "year<<" (titleParams_keys f) (by decide)
  have h4 := getParam_keys_none _ _ "year<<" (ratingParams_keys f) (by decide)
  have h5 := getParam_keys_none _ _ "year<<" (tagParams_keys f) (by decide)
  have h6 := getParam_keys_none _ _ "year<<" (watchParams_keys f) (by decide)
  have h7 := getParam_keys_none _ _ "year<<" (durationParams_keys f) (by decide)
  have h8 := getParam_keys_none _ _ "year<<" (addedParams_keys f nowMs) (by decide)
  have h9 := getParam_keys_none _ _ "year<<" (resolutionParams_keys f) (by decide)
  have h10 := getParam_keys_none _ _ "year<<" (sortParams_keys f) (by decide)
  have h11 := getParam_keys_none _ _ "year<<" (pageParams_keys f) (by decide)
  simp only [buildParams, getParam_append, h1, h2, h4, h5, h6, h7, h8, h9, h10, h11,
    optOr_none_right, optOr_none_left]
  simp only [yearParams, getParam_append, getParam_ite]
  by_cases hy : numTruthy f.year = true <;>
    by_cases hm : (numTruthy f.minYear || numTruthy f.maxYear) = true <;>
      by_cases hd : numTruthy f.decade = true <;>
        simp [hy, hm, hd, getParam, optOr]

theorem gp_durGte (f : Filters) (nowMs cy : ℚ) :
    getParam (buildParams f nowMs cy) "duration>>" =
      if numTruthy f.minDuration then
        some (PValue.num (getQ f.minDuration * 60 * 1000))
      else none := by
  have h1 := getParam_keys_none _ _ "duration>>" (typeParams_keys f) (by decide)
  have h2 := getParam_keys_none _ _ "duration>>" (titleParams_keys f) (by decide)
  have h3 := getParam_keys_none _ _ "duration>>" (yearParams_keys f cy) (by decide)
  have h4 := getParam_keys_none _ _ "duration>>" (ratingParams_keys f) (by decide)
  have h5 := getParam_keys_none _ _ "duration>>" (tagParams_keys f) (by decide)
  have h6 := getParam_keys_none _ _ "duration>>" (watchParams_keys f) (by decide)
  have h8 := getParam_keys_none _ _ "duration>>" (addedParams_keys f nowMs) (by decide)
  have h9 := getParam_keys_none _ _ "duration>>" (resolutionParams_keys f) (by decide)
  have h10 := getParam_keys_none _ _ "duration>>" (sortParams_keys f) (by decide)
  have h11 := getParam_keys_none _ _ "duration>>" (pageParams_keys f) (by decide)
  simp only [buildParams, getParam_append, h1, h2, h3, h4, h5, h6, h8, h9, h10, h11,
    optOr_none_right, optOr_none_left]
  simp only [durationParams, getParam_append, getParam_ite]
  by_cases ha : numTruthy f.minDuration = true <;>
    by_cases hb : numTruthy f.maxDuration = true <;>
      simp [ha, hb, getParam, optOr]

theorem gp_durLte (f : Filters) (nowMs cy : ℚ) :
    getParam (buildParams f nowMs cy) "duration<<" =
      if numTruthy f.maxDuration then
        some (PValue.num (getQ f.maxDuration * 60 * 1000))
      else none := by
  have h1 := getParam_keys_none _ _ "duration<<" (typeParams_keys f) (by decide)
  have h2 := getParam_keys_none _ _ "duration<<" (titleParams_keys f) (by decide)
  have h3 := getParam_keys_none _ _ "duration<<" (yearParams_keys f cy) (by decide)
  have h4 := getParam_keys_none _ _ "duration<<" (ratingParams_keys f) (by decide)
  have h5 := getParam_keys_none _ _ "duration<<" (tagParams_keys f) (by decide)
  have h6 := getParam_keys_none _ _ "duration<<" (watchParams_keys f) (by decide)
  have h8 := getParam_keys_none _ _ "duration<<" (addedParams_keys f nowMs) (by decide)
  have h9 := getParam_keys_none _ _ "duration<<" (resolutionParams_keys f) (by decide)
  have h10 := getParam_keys_none _ _ "duration<<" (sortParams_keys f) (by decide)
  have h11 := getParam_keys_none _ _ "duration<<" (pageParams_keys f) (by decide)
  simp only [buildParams, getParam_append, h1, h2, h3, h4, h5, h6, h8, h9, h10, h11,
    optOr_none_right, optOr_none_left]
  simp only [durationParams, getParam_append, getParam_ite]
  by_cases ha : numTruthy f.minDuration = true <;>
    by_cases hb : numTruthy f.maxDuration = true <;>
      simp [ha, hb, getParam, optOr]

/-! ## Section resolution -/

theorem resolveBranch (sections : List PlexSection) (fam : String)
    (hkeys : ∀ s ∈ sections, s.key ≠ "") :
    ((if strTruthy ((sections.find? fun s => s.stype == fam).map fun s => s.key) then
        ((sections.find? fun s => s.stype == fam).map fun s => s.key)
      else none) = none) ↔ ∀ s ∈ sections, (s.stype == fam) = false := by
  cases hfind : sections.find? fun s => s.stype == fam with
  | none =>
    have hall : ∀ s ∈ sections, (s.stype == fam) = false := by
      intro s hs
      simpa using List.find?_eq_none.mp hfind s hs
    simp only [Option.map_none, strTruthy, Bool.false_eq_true, if_false]
    constructor
    · intro _ s hs
      exact hall s hs
    · intro _
      rfl
  | some sec =>
    have hmem := List.mem_of_find?_eq_some hfind
    have hp := List.find?_some hfind
    have hk : sec.key ≠ "" := hkeys sec hmem
    constructor
    · intro h
      simp [strTruthy, hk] at h
    · intro hall
      exact absurd hp (by simp [hall sec hmem])

theorem resolveSection_none_iff (f : Filters) (sections : List PlexSection)
    (hsid : f.sectionId ≠ some "") (hkeys : ∀ s ∈ sections, s.key ≠ "") :
    (resolveSection f sections = none) ↔
      (f.sectionId = none ∧ ∀ s ∈ sections, specFamilyMatches f.type s.stype = false) := by
  rcases hf : f.sectionId with _ | s
  · rcases ht : f.type with _ | ty
    · simp [resolveSection, hf, ht, strTruthy, specFamilyMatches]
    · by_cases h1 : ty = "movie"
      · subst h1
        simpa [resolveSection, hf, ht, strTruthy, specFamilyMatches] using
          resolveBranch sections "movie" hkeys
      · by_cases h2 : ty = "show"
        · subst h2
          simpa [resolveSection, hf, ht, strTruthy, specFamilyMatches] using
            resolveBranch sections "show" hkeys
        · by_cases h3 : ty = "episode"
          · subst h3
            simpa [resolveSection, hf, ht, strTruthy, specFamilyMatches, h2] using
              resolveBranch sections "show" hkeys
          · by_cases h4 : ty = "artist"
            · subst h4
              simpa [resolveSection, hf, ht, strTruthy, specFamilyMatches] using
                resolveBranch sections "artist" hkeys
            · by_cases h5 : ty = "album"
              · subst h5
                simpa [resolveSection, hf, ht, strTruthy, specFamilyMatches, h4] using
                  resolveBranch sections "artist" hkeys
              · by_cases h6 : ty = "track"
                · subst h6
                  simpa [resolveSection, hf, ht, strTruthy, specFamilyMatches, h4, h5] using
                    resolveBranch sections "artist" hkeys
                · simp [resolveSection, hf, ht, strTruthy, specFamilyMatches,
                    h1, h2, h3, h4, h5, h6]
  · have hs : s ≠ "" := fun he => hsid (he ▸ hf)
    simp [resolveSection, hf, strTruthy, hs]

/-! ## Extractor-level helper lemmas -/

theorem find?_first {α : Type} (p : α → Bool) (l : List α) (i : ℕ) (a : α)
    (hi : l[i]? = some a) (ha : p a = true) :
    ∃ j b, j ≤ i ∧ l[j]? = some b ∧ p b = true ∧ l.find? p = some b ∧
      ∀ m c, m < j → l[m]? = some c → p c = false := by
  induction l generalizing i with
  | nil => simp at hi
  | cons x xs ih =>
    by_cases hx : p x = true
    · refine ⟨0, x, Nat.zero_le i, by simp, hx, by simp [List.find?, hx], ?_⟩
      intro m c hm _
      exact absurd hm (by omega)
    · cases i with
      | zero =>
        simp only [List.getElem?_cons_zero, Option.some_inj] at hi
        exact absurd ha (hi ▸ hx)
      | succ i' =>
        have hi' : xs[i']? = some a := by simpa using hi
        obtain ⟨j, b, hji, hjb, hpb, hfind, hmin⟩ := ih i' hi'
        refine ⟨j + 1, b, by omega, by simpa using hjb, hpb, ?_, ?_⟩
        · simp [List.find?, hx, hfind]
        · intro m c hm hmc
          cases m with
          | zero =>
            simp only [List.getElem?_cons_zero, Option.some_inj] at hmc
            rw [← hmc]
            simpa using hx
          | succ m' =>
            exact hmin m' c (by omega) (by simpa using hmc)

theorem assocLookup_mem {α : Type} (l : List (String × α)) (s : String) (v : α)
    (h : assocLookup l s = some v) : v ∈ l.map Prod.snd := by
  induction l with
  | nil => simp [assocLookup] at h
  | cons p rest ih =>
    rcases p with ⟨k, w⟩
    by_cases hk : k = s
    · rw [assocLookup, if_pos hk] at h
      injection h with h
      simp [h]
    · rw [assocLookup, if_neg hk] at h
      simp [ih h]

theorem watchExclusive (t : String) :
    (parseNaturalLanguageQuery t).unwatched = none ∨
      (parseNaturalLanguageQuery t).watched = none := by
  by_cases h : (hasSub (lowerStr t) "unwatched" || hasSub (lowerStr t) "not watched" ||
      hasSub (lowerStr t) "haven't watched") = true
  · right
    simp [parseNaturalLanguageQuery, h]
  · left
    simp [parseNaturalLanguageQuery, h]

/-! ## The claims -/

/-- Claim C3, counterexample: contrary to the claim, there is no input text
for which the Extractor returns unwatched, watched and inProgress all true at
once — the unwatched and watched branches form an if/else chain, so one of
the two flags is always left unset. -/
theorem claim3_counterexample :
    ¬ ∃ t : String, (parseNaturalLanguageQuery t).unwatched = some true ∧
      (parseNaturalLanguageQuery t).watched = some true ∧
      (parseNaturalLanguageQuery t).inProgress = some true := by
  rintro ⟨t, h1, h2, _⟩
  rcases watchExclusive t with h | h
  · rw [h] at h1
    exact Option.noConfusion h1
  · rw [h] at h2
    exact Option.noConfusion h2

/-- Claim C3, amended: the Extractor resolves mutual exclusion between
watched and unwatched (they are never both set, because the two branches are
an if/else chain), while inProgress is independent and can be true together
with either of them — e.g. "watched started" sets watched and inProgress,
and "unwatched started" sets unwatched and inProgress. -/
theorem claim3_watch_flags :
    (∀ t : String, (parseNaturalLanguageQuery t).unwatched = none ∨
      (parseNaturalLanguageQuery t).watched = none) ∧
    (parseNaturalLanguageQuery "watched started").watched = some true ∧
    (parseNaturalLanguageQuery "watched started").inProgress = some true ∧
    (parseNaturalLanguageQuery "unwatched started").unwatched = some true ∧
    (parseNaturalLanguageQuery "unwatched started").inProgress = some true :=
  ⟨watchExclusive, by decide, by decide, by decide, by decide⟩

/-- Claim C4: wherever the decade pattern of the Extractor matches with
two-digit value dd, the extracted decade is 2000 + dd*10 for dd below 30 and
1900 + dd*10 otherwise — the formula exactly as the source writes it, not the
conventional decade. -/
theorem claim4_decade_formula (t : String) (dd : ℕ)
    (h : decadeScan (lowerStr t) = some dd) :
    (parseNaturalLanguageQuery t).decade =
      some (((if dd < 30 then 2000 + dd * 10 else 1900 + dd * 10 : ℕ) : ℚ)) := by
  simp [parseNaturalLanguageQuery, h]

/-- Claim C4, witness: "90s" matches with dd = 90 and extracts decade 2800,
"20s" matches with dd = 20 and extracts decade 2200. -/
theorem claim4_decade_formula_witness :
    decadeScan (lowerStr "90s") = some 90 ∧
    (parseNaturalLanguageQuery "90s").decade = some 2800 ∧
    decadeScan (lowerStr "20s") = some 20 ∧
    (parseNaturalLanguageQuery "20s").decade = some 2200 := by
  refine ⟨by decide, ?_, by decide, ?_⟩
  · have h := claim4_decade_formula "90s" 90 (by decide)
    rw [h]
    norm_num
  · have h := claim4_decade_formula "20s" 20 (by decide)
    rw [h]
    norm_num

/-- Claim C6: when any entry of the genre allow-list occurs in the text (in
particular when two or more do), the extracted genre is exactly the first
matching entry in list order, normalized, and every earlier entry does not
occur in the text. -/
theorem claim6_genre_first_match (t : String) (i : ℕ) (gi : String)
    (hgi : genresList[i]? = some gi) (hc : hasSub (lowerStr t) gi = true) :
    ∃ j gj, j ≤ i ∧ genresList[j]? = some gj ∧ hasSub (lowerStr t) gj = true ∧
      (parseNaturalLanguageQuery t).genre = some (normGenre gj) ∧
      ∀ m gm, m < j → genresList[m]? = some gm → hasSub (lowerStr t) gm = false := by
  obtain ⟨j, b, hji, hjb, hpb, hfind, hmin⟩ :=
    find?_first (fun g => hasSub (lowerStr t) g) genresList i gi hgi hc
  refine ⟨j, b, hji, hjb, hpb, ?_, hmin⟩
  simp [parseNaturalLanguageQuery, hfind]

/-- Claim C6, witness: "comedy and action" contains the list entry comedy at
index 5, and the extracted genre is the first matching entry — action, at
index 0 — with no earlier entry contained in the text. -/
theorem claim6_genre_first_match_witness :
    ∃ j gj, j ≤ 5 ∧ genresList[j]? = some gj ∧
      hasSub (lowerStr "comedy and action") gj = true ∧
      (parseNaturalLanguageQuery "comedy and action").genre = some (normGenre gj) ∧
      ∀ m gm, m < j → genresList[m]? = some gm →
        hasSub (lowerStr "comedy and action") gm = false :=
  claim6_genre_first_match "comedy and action" 5 "comedy" (by decide) (by decide)

/-- Claim C10: any query text containing the letter g (after lower-casing)
gets contentRating "G", because the content-rating list is scanned in order
by substring containment and its first entry is "g". -/
theorem claim10_content_rating_g (t : String)
    (h : hasSub (lowerStr t) "g" = true) :
    (parseNaturalLanguageQuery t).contentRating = some "G" := by
  have hg : upperStr "g" = "G" := by decide
  simp [parseNaturalLanguageQuery, contentRatingsList, List.find?, h, hg]

/-- Claim C10, witness: the text "pg-13" contains the letter g and extracts
contentRating "G", not "PG-13". -/
theorem claim10_content_rating_g_witness :
    hasSub (lowerStr "pg-13") "g" = true ∧
    (parseNaturalLanguageQuery "pg-13").contentRating = some "G" :=
  ⟨by decide, claim10_content_rating_g "pg-13" (by decide)⟩

/-- Claim C1, counterexample: a resolved filter with both an exact year
(1995) and a decade (1990) compiles with the exact year key and the decade
range keys present at once — the three year branches are independent ifs,
not mutually exclusive. -/
theorem claim1_counterexample :
    getParam (buildParams { emptyFilters with type := some "movie", year := some 1995, decade := some 1990 } 0 2024) "year" = some (PValue.num 1995) ∧
    getParam (buildParams { emptyFilters with type := some "movie", year := some 1995, decade := some 1990 } 0 2024) "year>>" = some (PValue.num 1990) ∧
    getParam (buildParams { emptyFilters with type := some "movie", year := some 1995, decade := some 1990 } 0 2024) "year<<" = some (PValue.num 1999) := by
  refine ⟨?_, ?_, ?_⟩
  · rw [gp_year]
    norm_num [numTruthy, getQ]
  · rw [gp_yearGte]
    norm_num [numTruthy, getQ]
  · rw [gp_yearLte]
    norm_num [numTruthy, getQ]

/-- Claim C1, amended: a set (nonzero) decade always produces the range keys
`year>>` = decade and `year<<` = decade + 9, and these range keys take
precedence over minYear/maxYear because the decade branch writes them last;
but the exact `year` key is emitted independently whenever a nonzero exact
year is set, even alongside the decade, and is absent exactly when year is
unset — the branches are not mutually exclusive for the `year` key. -/
theorem claim1_year_precedence (f : Filters) (nowMs cy : ℚ) (d : ℚ)
    (hd : f.decade = some d) (hd0 : d ≠ 0) :
    getParam (buildParams f nowMs cy) "year>>" = some (PValue.num d) ∧
    getParam (buildParams f nowMs cy) "year<<" = some (PValue.num (d + 9)) ∧
    (∀ y : ℚ, f.year = some y → y ≠ 0 →
      getParam (buildParams f nowMs cy) "year" = some (PValue.num y)) ∧
    (f.year = none → getParam (buildParams f nowMs cy) "year" = none) := by
  have hdt : numTruthy f.decade = true := by simp [hd, numTruthy, hd0]
  refine ⟨?_, ?_, ?_, ?_⟩
  · rw [gp_yearGte, if_pos hdt, hd]
    simp [getQ]
  · rw [gp_yearLte, if_pos hdt, hd]
    simp [getQ]
  · intro y hy hy0
    have hyt : numTruthy f.year = true := by simp [hy, numTruthy, hy0]
    rw [gp_year, if_pos hyt, hy]
    simp [getQ]
  · intro hy
    have hyt : numTruthy f.year = false := by simp [hy, numTruthy]
    rw [gp_year]
    simp [hyt]

/-- Claim C1, witness: the filter with year 1995 and decade 1990 compiles
with year>> 1990, year<< 1999 and the year key still present. -/
theorem claim1_year_precedence_witness :
    getParam (buildParams { emptyFilters with type := some "movie", year := some 1995, decade := some 1990 } 0 0) "year>>" = some (PValue.num 1990) ∧
    getParam (buildParams { emptyFilters with type := some "movie", year := some 1995, decade := some 1990 } 0 0) "year<<" = some (PValue.num (1990 + 9)) ∧
    getParam (buildParams { emptyFilters with type := some "movie", year := some 1995, decade := some 1990 } 0 0) "year" = some (PValue.num 1995) := by
  have h := claim1_year_precedence { emptyFilters with type := some "movie", year := some 1995, decade := some 1990 } 0 0 1990 rfl (by norm_num)
  exact ⟨h.1, h.2.1, h.2.2.1 1995 rfl (by norm_num)⟩

/-- Claim C2: under the well-formedness assumptions that a supplied sectionId
is not the empty string and section keys are nonempty, advancedSearch fails
with the section-resolution error exactly when no sectionId is supplied and
no section of the filter's media-type family exists; and that error message
is the only error the compilation can produce (it is raised before any
parameter is built, so an error carries no partial parameter set). -/
theorem claim2_section_error_iff (f : Filters) (sections : List PlexSection)
    (nowMs cy : ℚ) (hsid : f.sectionId ≠ some "")
    (hkeys : ∀ s ∈ sections, s.key ≠ "") :
    ((advancedSearch f sections nowMs cy =
        Except.error "Could not determine library section for search") ↔
      (f.sectionId = none ∧ ∀ s ∈ sections, specFamilyMatches f.type s.stype = false))
    ∧ ∀ e, advancedSearch f sections nowMs cy = Except.error e →
        e = "Could not determine library section for search" := by
  have key := resolveSection_none_iff f sections hsid hkeys
  constructor
  · cases hres : resolveSection f sections with
    | none =>
      simp only [advancedSearch, hres]
      exact iff_of_true trivial (key.mp hres)
    | some sid =>
      simp only [advancedSearch, hres]
      constructor
      · intro h
        exact absurd h (by simp)
      · intro hrhs
        have hnone := key.mpr hrhs
        rw [hres] at hnone
        exact absurd hnone (by simp)
  · intro e he
    cases hres : resolveSection f sections with
    | none =>
      simp only [advancedSearch, hres] at he
      injection he with h
      exact h.symm
    | some sid =>
      simp only [advancedSearch, hres] at he
      exact absurd he (by simp)

/-- Claim C2, witness: a movie filter against an empty section list fails
with exactly the section-resolution error. -/
theorem claim2_section_error_iff_witness :
    ((advancedSearch { emptyFilters with type := some "movie" } [] 0 0 =
        Except.error "Could not determine library section for search") ↔
      (({ emptyFilters with type := some "movie" } : Filters).sectionId = none ∧
        ∀ s ∈ ([] : List PlexSection),
          specFamilyMatches ({ emptyFilters with type := some "movie" } : Filters).type
            s.stype = false))
    ∧ ∀ e, advancedSearch { emptyFilters with type := some "movie" } [] 0 0 =
        Except.error e →
        e = "Could not determine library section for search" :=
  claim2_section_error_iff { emptyFilters with type := some "movie" } [] 0 0
    (by decide) (fun s hs => absurd hs (List.not_mem_nil s))

/-- Claim C5, counterexample: the text "90s before 1980" contains
"before 1980", and the Extractor does set maxYear 1979, but the compiled
query's `year<<` is 2809, not 1979 — the decade pattern also matches, and the
decade branch overwrites the range keys. -/
theorem claim5_counterexample :
    scanKwYear "before" (lowerStr "90s before 1980") = some 1980 ∧
    (parseNaturalLanguageQuery "90s before 1980").maxYear = some 1979 ∧
    getParam (buildParams (smartSearchFilters "90s before 1980") 0 2024) "year<<" =
      some (PValue.num 2809) ∧
    (2809 : ℚ) ≠ 1980 - 1 := by
  have hb : scanKwYear "before" (lowerStr "90s before 1980") = some 1980 := by decide
  have hd : decadeScan (lowerStr "90s before 1980") = some 90 := by decide
  have hdec : (smartSearchFilters "90s before 1980").decade = some 2800 := by
    simp [smartSearchFilters, parseNaturalLanguageQuery, hd]
    norm_num
  have ht : numTruthy (smartSearchFilters "90s before 1980").decade = true := by
    simp [hdec, numTruthy]
  refine ⟨hb, ?_, ?_, by norm_num⟩
  · simp [parseNaturalLanguageQuery, hb]
    norm_num
  · rw [gp_yearLte, if_pos ht, hdec]
    simp [getQ]
    norm_num

/-- Claim C5, amended: on text where the decade pattern does not match, the
first "before YYYY" occurrence (YYYY not 1, so that the bound is truthy)
gives maxYear YYYY-1 and compiled `year<<` YYYY-1, and the first
"after YYYY" occurrence gives minYear YYYY+1 and compiled `year>>` YYYY+1;
when the decade pattern also matches, the decade range overwrites both keys
(claim C1), and with several occurrences the leftmost match wins. -/
theorem claim5_before_after (t : String) :
    (∀ y : ℕ, decadeScan (lowerStr t) = none →
      scanKwYear "before" (lowerStr t) = some y → y ≠ 1 →
      (parseNaturalLanguageQuery t).maxYear = some ((y : ℚ) - 1) ∧
      ∀ nowMs cy : ℚ,
        getParam (buildParams (smartSearchFilters t) nowMs cy) "year<<" =
          some (PValue.num ((y : ℚ) - 1))) ∧
    (∀ y : ℕ, decadeScan (lowerStr t) = none →
      scanKwYear "after" (lowerStr t) = some y →
      (parseNaturalLanguageQuery t).minYear = some ((y : ℚ) + 1) ∧
      ∀ nowMs cy : ℚ,
        getParam (buildParams (smartSearchFilters t) nowMs cy) "year>>" =
          some (PValue.num ((y : ℚ) + 1))) := by
  constructor
  · intro y hdec hbef hy1
    have hmax : (parseNaturalLanguageQuery t).maxYear = some ((y : ℚ) - 1) := by
      simp [parseNaturalLanguageQuery, hbef]
    have hdecf : (parseNaturalLanguageQuery t).decade = none := by
      simp [parseNaturalLanguageQuery, hdec]
    refine ⟨hmax, ?_⟩
    intro nowMs cy
    have hymax : (smartSearchFilters t).maxYear = some ((y : ℚ) - 1) := by
      simp [smartSearchFilters, hmax]
    have hydec : (smartSearchFilters t).decade = none := by
      simp [smartSearchFilters, hdecf]
    have hne : (y : ℚ) - 1 ≠ 0 := by
      rw [sub_ne_zero]
      exact_mod_cast hy1
    have h1 : numTruthy (smartSearchFilters t).decade = false := by
      simp [hydec, numTruthy]
    have h2 : numTruthy (smartSearchFilters t).maxYear = true := by
      simp [hymax, numTruthy, hne]
    have hc1 : ¬ numTruthy (smartSearchFilters t).decade = true := by simp [h1]
    have hc2 : (numTruthy (smartSearchFilters t).minYear ||
        numTruthy (smartSearchFilters t).maxYear) = true := by simp [h2]
    rw [gp_yearLte, if_neg hc1, if_pos hc2, if_pos h2, hymax]
    simp [getQ]
  · intro y hdec haft
    have hmin : (parseNaturalLanguageQuery t).minYear = some ((y : ℚ) + 1) := by
      simp [parseNaturalLanguageQuery, haft]
    have hdecf : (parseNaturalLanguageQuery t).decade = none := by
      simp [parseNaturalLanguageQuery, hdec]
    refine ⟨hmin, ?_⟩
    intro nowMs cy
    have hymin : (smartSearchFilters t).minYear = some ((y : ℚ) + 1) := by
      simp [smartSearchFilters, hmin]
    have hydec : (smartSearchFilters t).decade = none := by
      simp [smartSearchFilters, hdecf]
    have hne : (y : ℚ) + 1 ≠ 0 := by positivity
    have h1 : numTruthy (smartSearchFilters t).decade = false := by
      simp [hydec, numTruthy]
    have h2 : numTruthy (smartSearchFilters t).minYear = true := by
      simp [hymin, numTruthy, hne]
    have hc1 : ¬ numTruthy (smartSearchFilters t).decade = true := by simp [h1]
    have hc2 : (numTruthy (smartSearchFilters t).minYear ||
        numTruthy (smartSearchFilters t).maxYear) = true := by simp [h2]
    rw [gp_yearGte, if_neg hc1, if_pos hc2, if_pos h2, hymin]
    simp [getQ]

/-- Claim C5, witness: "before 1980 after 1990" (no decade pattern) yields
maxYear 1979, minYear 1991, compiled year<< 1979 and year>> 1991. -/
theorem claim5_before_after_witness :
    (parseNaturalLanguageQuery "before 1980 after 1990").maxYear = some 1979 ∧
    (parseNaturalLanguageQuery "before 1980 after 1990").minYear = some 1991 ∧
    getParam (buildParams (smartSearchFilters "before 1980 after 1990") 0 2024) "year<<" =
      some (PValue.num 1979) ∧
    getParam (buildParams (smartSearchFilters "before 1980 after 1990") 0 2024) "year>>" =
      some (PValue.num 1991) := by
  have hb := (claim5_before_after "before 1980 after 1990").1 1980 (by decide) (by decide)
    (by decide)
  have ha := (claim5_before_after "before 1980 after 1990").2 1990 (by decide) (by decide)
  have h1 := hb.1
  have h2 := hb.2 0 2024
  have h3 := ha.1
  have h4 := ha.2 0 2024
  norm_num at h1 h2 h3 h4
  exact ⟨h1, h3, h2, h4⟩

/-- Claim C7: every compiled query carries a sort parameter of the literal
form field:direction, with the field from the closed allow-list (unrecognized
fields fall back to titleSort), the direction asc or desc (desc exactly when
sortOrder is desc), and even sort random gets an explicit direction. -/
theorem claim7_sort_compilation :
    (∀ (f : Filters) (nowMs cy : ℚ),
      getParam (buildParams f nowMs cy) "sort" =
        some (PValue.str (sortFieldOf f ++ ":" ++ sortDirOf f)) ∧
      sortFieldOf f ∈ ["titleSort", "year", "rating", "addedAt", "lastViewedAt",
        "duration", "random"] ∧
      (sortDirOf f = "asc" ∨ sortDirOf f = "desc") ∧
      (sortDirOf f = "desc" ↔ f.sortOrder = some "desc")) ∧
    sortFieldOf { emptyFilters with sort := some "released" } = "titleSort" ∧
    getParam (buildParams { emptyFilters with sort := some "random" } 0 0) "sort" =
      some (PValue.str "random:asc") := by
  refine ⟨?_, by decide, ?_⟩
  · intro f nowMs cy
    refine ⟨gp_sort f nowMs cy, ?_, ?_, ?_⟩
    · unfold sortFieldOf
      by_cases hs : strTruthy f.sort = true
      · rw [if_pos hs]
        cases hl : assocLookup sortMap (getS f.sort) with
        | none => decide
        | some v =>
          have hv := assocLookup_mem sortMap (getS f.sort) v hl
          simpa [sortMap] using hv
      · rw [if_neg hs]
        decide
    · unfold sortDirOf
      by_cases h : f.sortOrder = some "desc"
      · rw [if_pos h]
        exact Or.inr rfl
      · rw [if_neg h]
        exact Or.inl rfl
    · unfold sortDirOf
      by_cases h : f.sortOrder = some "desc"
      · simp [h]
      · simp [h]
  · rw [gp_sort]
    have hf : sortFieldOf { emptyFilters with sort := some "random" } = "random" := by
      decide
    have hd : sortDirOf { emptyFilters with sort := some "random" } = "asc" := by
      decide
    rw [hf, hd]
    rfl

/-- Claim C8, counterexample: minDurationMinutes 0 (an integer, with
0 * 60000 = 0) emits no duration key at all, because presence is tested by
truthiness — so the claim fails at M = 0. -/
theorem claim8_counterexample :
    getParam (buildParams { emptyFilters with type := some "movie", minDuration := some 0 }
      0 2024) "duration>>" = none ∧
    getParam (buildParams { emptyFilters with type := some "movie", maxDuration := some 0 }
      0 2024) "duration<<" = none := by
  constructor
  · rw [gp_durGte]
    norm_num [numTruthy]
  · rw [gp_durLte]
    norm_num [numTruthy]

/-- Claim C8, amended: for every nonzero integer M, a filter with
minDurationMinutes M compiles with duration>> exactly M * 60000, and one with
maxDurationMinutes M compiles with duration<< exactly M * 60000, an exact
multiplication with no rounding; M = 0 instead emits no key (truthiness,
claim C9). -/
theorem claim8_duration_ms (f : Filters) (nowMs cy : ℚ) (M : ℤ) (hM : M ≠ 0) :
    (f.minDuration = some (M : ℚ) →
      getParam (buildParams f nowMs cy) "duration>>" =
        some (PValue.num ((M : ℚ) * 60000))) ∧
    (f.maxDuration = some (M : ℚ) →
      getParam (buildParams f nowMs cy) "duration<<" =
        some (PValue.num ((M : ℚ) * 60000))) := by
  have hMq : (M : ℚ) ≠ 0 := Int.cast_ne_zero.mpr hM
  have harith : (M : ℚ) * 60 * 1000 = (M : ℚ) * 60000 := by ring
  constructor
  · intro hmin
    have ht : numTruthy f.minDuration = true := by simp [hmin, numTruthy, hMq]
    rw [gp_durGte, if_pos ht, hmin]
    simp [getQ]
    rw [harith]
  · intro hmax
    have ht : numTruthy f.maxDuration = true := by simp [hmax, numTruthy, hMq]
    rw [gp_durLte, if_pos ht, hmax]
    simp [getQ]
    rw [harith]

/-- Claim C8, witness: 90 minutes compiles to duration>> 5400000 and 150
minutes to duration<< 9000000. -/
theorem claim8_duration_ms_witness :
    getParam (buildParams { emptyFilters with minDuration := some 90, maxDuration := some 150 } 0 0) "duration>>" = some (PValue.num 5400000) ∧
    getParam (buildParams { emptyFilters with minDuration := some 90, maxDuration := some 150 } 0 0) "duration<<" = some (PValue.num 9000000) := by
  have h90 := (claim8_duration_ms { emptyFilters with minDuration := some 90, maxDuration := some 150 } 0 0 90 (by norm_num)).1 (by norm_num)
  have h150 := (claim8_duration_ms { emptyFilters with minDuration := some 90, maxDuration := some 150 } 0 0 150 (by norm_num)).2 (by norm_num)
  norm_num at h90 h150
  exact ⟨h90, h150⟩

/-- Claim C9: every numeric filter field set to 0 behaves exactly as if it
were unset (presence is tested by truthiness, so no corresponding parameter
key is emitted), and limit 0 falls back to the default pagination size 25. -/
theorem claim9_zero_fields :
    (∀ (f : Filters) (sections : List PlexSection) (nowMs cy : ℚ),
      advancedSearch { f with year := some 0 } sections nowMs cy =
        advancedSearch { f with year := none } sections nowMs cy) ∧
    (∀ (f : Filters) (sections : List PlexSection) (nowMs cy : ℚ),
      advancedSearch { f with minYear := some 0 } sections nowMs cy =
        advancedSearch { f with minYear := none } sections nowMs cy) ∧
    (∀ (f : Filters) (sections : List PlexSection) (nowMs cy : ℚ),
      advancedSearch { f with maxYear := some 0 } sections nowMs cy =
        advancedSearch { f with maxYear := none } sections nowMs cy) ∧
    (∀ (f : Filters) (sections : List PlexSection) (nowMs cy : ℚ),
      advancedSearch { f with decade := some 0 } sections nowMs cy =
        advancedSearch { f with decade := none } sections nowMs cy) ∧
    (∀ (f : Filters) (sections : List PlexSection) (nowMs cy : ℚ),
      advancedSearch { f with minRating := some 0 } sections nowMs cy =
        advancedSearch { f with minRating := none } sections nowMs cy) ∧
    (∀ (f : Filters) (sections : List PlexSection) (nowMs cy : ℚ),
      advancedSearch { f with maxRating := some 0 } sections nowMs cy =
        advancedSearch { f with maxRating := none } sections nowMs cy) ∧
    (∀ (f : Filters) (sections : List PlexSection) (nowMs cy : ℚ),
      advancedSearch { f with minDuration := some 0 } sections nowMs cy =
        advancedSearch { f with minDuration := none } sections nowMs cy) ∧
    (∀ (f : Filters) (sections : List PlexSection) (nowMs cy : ℚ),
      advancedSearch { f with maxDuration := some 0 } sections nowMs cy =
        advancedSearch { f with maxDuration := none } sections nowMs cy) ∧
    (∀ (f : Filters) (sections : List PlexSection) (nowMs cy : ℚ),
      advancedSearch { f with addedWithin := some 0 } sections nowMs cy =
        advancedSearch { f with addedWithin := none } sections nowMs cy) ∧
    (∀ (f : Filters) (nowMs cy : ℚ),
      getParam (buildParams { f with limit := some 0 } nowMs cy) "X-Plex-Container-Size" =
        some (PValue.num 25)) := by
  refine ⟨fun f s n c => rfl, fun f s n c => rfl, fun f s n c => rfl, fun f s n c => rfl,
    fun f s n c => rfl, fun f s n c => rfl, fun f s n c => rfl, fun f s n c => rfl,
    fun f s n c => rfl, ?_⟩
  intro f nowMs cy
  rw [gp_size]
  norm_num [numTruthy]
